import Mathlib

/-!
Verification of the single-validator stake pool processor
(stake-pool/single-pool/src/processor.rs).

Machine integers are embedded as natural numbers with explicit bounds:
a u64 value is a natural below U64_MOD, a u128 intermediate is a natural
below U128_MOD.  Rust checked operations become Option-valued functions,
and the u64::try_from narrowing becomes a bounds test.  Public keys are
opaque 32-byte values compared only for equality, so they are embedded
as naturals; the fixed program ids are distinct constants.
-/

namespace SinglePool

/-- Modulus of the u64 type. -/
def U64_MOD : Nat := 2 ^ 64

/-- Modulus of the u128 type. -/
def U128_MOD : Nat := 2 ^ 128

/-- Epoch is a u64 in the runtime; Epoch.MAX is u64.MAX. -/
def EPOCH_MAX : Nat := U64_MOD - 1

/-- Lamports per SOL constant from solana native_token. -/
def LAMPORTS_PER_SOL : Nat := 1000000000

/-- Rust u128 checked_mul on values already reduced mod U128_MOD. -/
def checked_mul_u128 (a b : Nat) : Option Nat :=
  if a * b < U128_MOD then some (a * b) else none

/-- Rust u128 checked_div: none exactly when the divisor is zero. -/
def checked_div_u128 (a b : Nat) : Option Nat :=
  if b = 0 then none else some (a / b)

/-- Rust u64 checked_sub. -/
def checked_sub_u64 (a b : Nat) : Option Nat :=
  if a < b then none else some (a - b)

/-- Rust u64 saturating_sub; on naturals truncated subtraction is already saturating. -/
def saturating_sub (a b : Nat) : Nat := a - b

/-- Rust u64 try_from on a u128 value: succeeds exactly when the value fits. -/
def u64_try_from (n : Nat) : Option Nat :=
  if n < U64_MOD then some n else none

/-- Calculate pool tokens to mint, given outstanding token supply, pool
active stake, and deposit active stake (processor.rs calculate_deposit_amount). -/
def calculate_deposit_amount (pre_token_supply pre_pool_stake user_stake_to_deposit : Nat) :
    Option Nat :=
  if pre_pool_stake = 0 ∨ pre_token_supply = 0 then
    some user_stake_to_deposit
  else
    (checked_mul_u128 user_stake_to_deposit pre_token_supply).bind fun product =>
      (checked_div_u128 product pre_pool_stake).bind fun quotient =>
        u64_try_from quotient

/-- Calculate pool stake to return, given outstanding token supply, pool
active stake, and tokens to redeem (processor.rs calculate_withdraw_amount). -/
def calculate_withdraw_amount (pre_token_supply pre_pool_stake user_tokens_to_burn : Nat) :
    Option Nat :=
  (checked_mul_u128 user_tokens_to_burn pre_pool_stake).bind fun numerator =>
    let denominator := pre_token_supply
    if numerator < denominator ∨ denominator = 0 then
      some 0
    else
      (checked_div_u128 numerator denominator).bind fun quotient =>
        u64_try_from quotient

/-- Product of two u64 values always fits in u128. -/
theorem mul_lt_u128 {a b : Nat} (ha : a < U64_MOD) (hb : b < U64_MOD) :
    a * b < U128_MOD := by
  have h1 : a * b ≤ (U64_MOD - 1) * (U64_MOD - 1) :=
    Nat.mul_le_mul (by omega) (by omega)
  have h2 : (U64_MOD - 1) * (U64_MOD - 1) < U128_MOD := by decide
  omega

/-- C1: for u64 inputs, calculate_deposit_amount returns the deposited stake
unchanged when the pool stake or the token supply is zero, and otherwise
returns the 128-bit floor quotient added_stake * pre_supply / pre_stake,
returning none exactly when that quotient does not fit back into u64. -/
theorem calculate_deposit_amount_spec (s p a : Nat)
    (hs : s < U64_MOD) (_hp : p < U64_MOD) (ha : a < U64_MOD) :
    calculate_deposit_amount s p a =
      if p = 0 ∨ s = 0 then some a
      else if a * s / p < U64_MOD then some (a * s / p) else none := by
  unfold calculate_deposit_amount
  by_cases hps : p = 0 ∨ s = 0
  · simp [hps]
  · push_neg at hps
    obtain ⟨hp0, hs0⟩ := hps
    have hmul : a * s < U128_MOD := mul_lt_u128 ha hs
    simp [checked_mul_u128, checked_div_u128, u64_try_from, hp0, hs0, hmul]

/-- Witness for C1 at supply 7, stake 3, deposit 5. -/
theorem calculate_deposit_amount_spec_witness :
    7 < U64_MOD ∧ 3 < U64_MOD ∧ 5 < U64_MOD ∧
    calculate_deposit_amount 7 3 5 =
      (if (3 : Nat) = 0 ∨ (7 : Nat) = 0 then some 5
       else if 5 * 7 / 3 < U64_MOD then some (5 * 7 / 3) else none) :=
  ⟨by decide, by decide, by decide,
    calculate_deposit_amount_spec 7 3 5 (by decide) (by decide) (by decide)⟩

/-- Counterexample for C2: at supply 1, stake u64.MAX, burn u64.MAX the
"otherwise" case applies (numerator is not below the denominator and the
denominator is nonzero), yet the function returns none rather than the
floor quotient, because the quotient does not fit into u64. -/
theorem calculate_withdraw_amount_not_always_floor :
    ¬ ((U64_MOD - 1) * (U64_MOD - 1) < 1 ∨ (1 : Nat) = 0) ∧
    calculate_withdraw_amount 1 (U64_MOD - 1) (U64_MOD - 1) = none ∧
    calculate_withdraw_amount 1 (U64_MOD - 1) (U64_MOD - 1) ≠
      some ((U64_MOD - 1) * (U64_MOD - 1) / 1) := by
  refine ⟨by decide, by decide, by decide⟩

/-- C2 amended: for u64 inputs, calculate_withdraw_amount returns 0 when the
denominator pre_supply is zero or the 128-bit numerator burned_tokens *
pre_stake is below it, and otherwise returns the floor quotient when it fits
into u64 and none when it does not. -/
theorem calculate_withdraw_amount_spec (s p t : Nat)
    (_hs : s < U64_MOD) (hp : p < U64_MOD) (ht : t < U64_MOD) :
    calculate_withdraw_amount s p t =
      if t * p < s ∨ s = 0 then some 0
      else if t * p / s < U64_MOD then some (t * p / s) else none := by
  unfold calculate_withdraw_amount
  have hmul : t * p < U128_MOD := mul_lt_u128 ht hp
  by_cases hcase : t * p < s ∨ s = 0
  · simp [checked_mul_u128, hmul, hcase]
  · push_neg at hcase
    obtain ⟨hge, hs0⟩ := hcase
    have hnlt : ¬ (t * p < s) := Nat.not_lt.mpr hge
    simp [checked_mul_u128, checked_div_u128, u64_try_from, hmul, hnlt, hs0]

/-- Witness for amended C2 at supply 4, stake 6, burn 2. -/
theorem calculate_withdraw_amount_spec_witness :
    4 < U64_MOD ∧ 6 < U64_MOD ∧ 2 < U64_MOD ∧
    calculate_withdraw_amount 4 6 2 =
      (if 2 * 6 < 4 ∨ (4 : Nat) = 0 then some 0
       else if 2 * 6 / 4 < U64_MOD then some (2 * 6 / 4) else none) :=
  ⟨by decide, by decide, by decide,
    calculate_withdraw_amount_spec 4 6 2 (by decide) (by decide) (by decide)⟩

/-- Counterexample for C3: with supply 1, stake 1 and 5 tokens to burn, the
calculator releases 5 stake, which exceeds the effective backing 1. -/
theorem calculate_withdraw_amount_can_exceed_stake :
    (0 : Nat) < 1 ∧
    calculate_withdraw_amount 1 1 5 = some 5 ∧
    ¬ (5 ≤ 1) := by
  refine ⟨by decide, by decide, by decide⟩

/-- C3 amended: for u64 inputs with pre_supply positive and tokens at most
pre_supply, the calculator succeeds and never releases more than the
effective backing pre_stake. -/
theorem calculate_withdraw_amount_le_stake (s p t : Nat)
    (hs : 0 < s) (hs64 : s < U64_MOD) (hp : p < U64_MOD) (ht : t ≤ s) :
    ∃ v, calculate_withdraw_amount s p t = some v ∧ v ≤ p := by
  have ht64 : t < U64_MOD := Nat.lt_of_le_of_lt ht hs64
  have hmul : t * p < U128_MOD := mul_lt_u128 ht64 hp
  rcases Nat.lt_or_ge (t * p) s with hlt | hge
  · exact ⟨0, by simp [calculate_withdraw_amount, checked_mul_u128, hmul, hlt],
      Nat.zero_le p⟩
  · have hs0 : s ≠ 0 := by omega
    have hq : t * p / s ≤ p := by
      calc t * p / s ≤ s * p / s := Nat.div_le_div_right (Nat.mul_le_mul_right p ht)
        _ = p := Nat.mul_div_cancel_left p hs
    have hql : t * p / s < U64_MOD := Nat.lt_of_le_of_lt hq hp
    have hnlt : ¬ (t * p < s) := Nat.not_lt.mpr hge
    exact ⟨t * p / s,
      by simp [calculate_withdraw_amount, checked_mul_u128, checked_div_u128,
        u64_try_from, hmul, hnlt, hs0, hql], hq⟩

/-- Witness for amended C3 at supply 3, stake 7, burn 2. -/
theorem calculate_withdraw_amount_le_stake_witness :
    (0 : Nat) < 3 ∧ 3 < U64_MOD ∧ 7 < U64_MOD ∧ 2 ≤ 3 ∧
    ∃ v, calculate_withdraw_amount 3 7 2 = some v ∧ v ≤ 7 :=
  ⟨by decide, by decide, by decide, by decide,
    calculate_withdraw_amount_le_stake 3 7 2 (by decide) (by decide) (by decide)
      (by decide)⟩

/-- C10: burning exactly the whole outstanding supply releases exactly the
whole effective stake, with no rounding loss and no narrowing failure. -/
theorem calculate_withdraw_amount_full_supply (s p : Nat)
    (hs : 0 < s) (hs64 : s < U64_MOD) (hp : p < U64_MOD) :
    calculate_withdraw_amount s p s = some p := by
  have hmul : s * p < U128_MOD := mul_lt_u128 hs64 hp
  have hs0 : s ≠ 0 := by omega
  rcases Nat.eq_zero_or_pos p with hp0 | hppos
  · subst hp0
    have h0 : (0 : Nat) < U128_MOD := by decide
    simp [calculate_withdraw_amount, checked_mul_u128, h0, hs]
  · have hsle : s * 1 ≤ s * p := Nat.mul_le_mul (Nat.le_refl s) hppos
    rw [Nat.mul_one] at hsle
    have hnlt : ¬ (s * p < s) := Nat.not_lt.mpr hsle
    have hq : s * p / s = p := Nat.mul_div_cancel_left p hs
    simp [calculate_withdraw_amount, checked_mul_u128, checked_div_u128,
      u64_try_from, hmul, hnlt, hs0, hq, hp]

/-- Witness for C10 at supply 5, stake 9. -/
theorem calculate_withdraw_amount_full_supply_witness :
    (0 : Nat) < 5 ∧ 5 < U64_MOD ∧ 9 < U64_MOD ∧
    calculate_withdraw_amount 5 9 5 = some 9 :=
  ⟨by decide, by decide, by decide,
    calculate_withdraw_amount_full_supply 5 9 (by decide) (by decide) (by decide)⟩

/-- Helper: whenever numerator times stake is bounded by B times supply, the
withdraw calculator succeeds and stays at most B. -/
theorem withdraw_le_of_mul_le (S P T B : Nat)
    (hT : T < U64_MOD) (hP : P < U64_MOD) (hB : B < U64_MOD)
    (hkey : T * P ≤ B * S) :
    ∃ v, calculate_withdraw_amount S P T = some v ∧ v ≤ B := by
  have hmul : T * P < U128_MOD := mul_lt_u128 hT hP
  by_cases hcase : T * P < S ∨ S = 0
  · exact ⟨0, by simp [calculate_withdraw_amount, checked_mul_u128, hmul, hcase],
      Nat.zero_le B⟩
  · push_neg at hcase
    obtain ⟨hge, hS0⟩ := hcase
    have hSpos : 0 < S := Nat.pos_of_ne_zero hS0
    have hq : T * P / S ≤ B := by
      calc T * P / S ≤ B * S / S := Nat.div_le_div_right hkey
        _ = S * B / S := by rw [Nat.mul_comm]
        _ = B := Nat.mul_div_cancel_left B hSpos
    have hql : T * P / S < U64_MOD := Nat.lt_of_le_of_lt hq hB
    have hnlt : ¬ (T * P < S) := Nat.not_lt.mpr hge
    exact ⟨T * P / S,
      by simp [calculate_withdraw_amount, checked_mul_u128, checked_div_u128,
        u64_try_from, hmul, hnlt, hS0, hql], hq⟩

/-- Counterexample for C4: with supply 0 but stake 5, depositing 1 mints 1
token (bootstrap branch), and immediately withdrawing that token releases 6
stake, far more than the 1 deposited. -/
theorem roundtrip_not_conservative_zero_supply :
    calculate_deposit_amount 0 5 1 = some 1 ∧
    0 + 1 < U64_MOD ∧ 5 + 1 < U64_MOD ∧
    calculate_withdraw_amount (0 + 1) (5 + 1) 1 = some 6 ∧
    ¬ (6 ≤ 1) := by
  refine ⟨by decide, by decide, by decide, by decide, by decide⟩

/-- C4 amended: provided the pre-deposit state is not the anomalous one with
zero token supply against positive effective stake (that is, pre_supply is
positive or pre_stake is zero), a successful deposit of added_stake minting t
tokens followed by a withdrawal of those t tokens at the post-deposit totals
releases at most added_stake. -/
theorem roundtrip_conservative (s p a t : Nat)
    (hcond : 0 < s ∨ p = 0)
    (hs : s < U64_MOD) (hp : p < U64_MOD) (ha : a < U64_MOD)
    (hdep : calculate_deposit_amount s p a = some t)
    (hs2 : s + t < U64_MOD) (hp2 : p + a < U64_MOD) :
    ∃ v, calculate_withdraw_amount (s + t) (p + a) t = some v ∧ v ≤ a := by
  have ht64 : t < U64_MOD := by omega
  by_cases hboot : p = 0 ∨ s = 0
  · have hp0 : p = 0 := by
      rcases hboot with h | h
      · exact h
      · rcases hcond with h' | h'
        · omega
        · exact h'
    have hta : t = a := by
      rw [calculate_deposit_amount, if_pos hboot] at hdep
      exact (Option.some_inj.mp hdep).symm
    subst hta
    subst hp0
    apply withdraw_le_of_mul_le (s + t) (0 + t) t t ht64 hp2 ht64
    have : t * (0 + t) = t * t := by rw [Nat.zero_add]
    rw [this]
    exact Nat.mul_le_mul_left t (by omega)
  · push_neg at hboot
    obtain ⟨hp0, hs0⟩ := hboot
    have hmul : a * s < U128_MOD := mul_lt_u128 ha hs
    rw [calculate_deposit_amount, if_neg (by push_neg; exact ⟨hp0, hs0⟩)] at hdep
    simp only [checked_mul_u128, checked_div_u128, u64_try_from, if_pos hmul,
      if_neg hp0, Option.some_bind] at hdep
    by_cases hfit : a * s / p < U64_MOD
    · rw [if_pos hfit] at hdep
      have htq : t = a * s / p := (Option.some_inj.mp hdep).symm
      apply withdraw_le_of_mul_le (s + t) (p + a) t a ht64 hp2 ha
      have h1 : t * p ≤ a * s := by
        rw [htq]
        exact Nat.div_mul_le_self (a * s) p
      calc t * (p + a) = t * p + t * a := Nat.mul_add t p a
        _ ≤ a * s + a * t := Nat.add_le_add h1 (Nat.le_of_eq (Nat.mul_comm t a))
        _ = a * (s + t) := (Nat.mul_add a s t).symm
    · rw [if_neg hfit] at hdep
      exact absurd hdep (by simp)

/-- Witness for amended C4 at supply 2, stake 2, deposit 3 (mints 3 tokens;
withdrawing them at totals 5 and 5 releases exactly 3). -/
theorem roundtrip_conservative_witness :
    ((0 : Nat) < 2 ∨ (2 : Nat) = 0) ∧ 2 < U64_MOD ∧ 3 < U64_MOD ∧
    calculate_deposit_amount 2 2 3 = some 3 ∧
    2 + 3 < U64_MOD ∧ 2 + 3 < U64_MOD ∧
    ∃ v, calculate_withdraw_amount (2 + 3) (2 + 3) 3 = some v ∧ v ≤ 3 :=
  ⟨by decide, by decide, by decide, by decide, by decide, by decide,
    roundtrip_conservative 2 2 3 3 (by decide) (by decide) (by decide) (by decide)
      (by decide) (by decide) (by decide)⟩

/-! Handler embedding.  Accounts are embedded by the fields the processor
reads; public keys as naturals (only equality is used); program-derived
addresses and CPI results are environment inputs, since address derivation
hashes and cross-program invocations live outside this program.  A handler
returns the list of mutations it performed, in order, together with the
error it stopped at (none on success). -/

/-- Stake account metadata (only the field the processor reads). -/
structure Meta where
  rent_exempt_reserve : Nat
deriving DecidableEq

/-- Delegation portion of a stake account. -/
structure Delegation where
  stake : Nat
  activation_epoch : Nat
  deactivation_epoch : Nat
deriving DecidableEq

/-- Stake portion of a stake account. -/
structure Stake where
  delegation : Delegation
deriving DecidableEq

/-- StakeState enum from the stake program. -/
inductive StakeState where
  | uninitialized
  | initialized (meta : Meta)
  | stake (meta : Meta) (stk : Stake)
  | rewardsPool
deriving DecidableEq

/-- Errors the embedded handlers can stop at: the SinglePoolError variants
the processor raises, plus markers for failures that surface from outside
this program (sysvar reads, borsh, the syscall, CPIs). -/
inductive PoolError where
  | invalidPoolStakeAccount
  | invalidPoolAuthority
  | invalidPoolMint
  | incorrectProgramId
  | invalidSysvar
  | minimumDelegationUnavailable
  | unparseableStakeAccount
  | unparseableMint
  | cpiFailed
  | invalidPoolAccountUsage
  | wrongStakeState
  | arithmeticOverflow
  | unexpectedMathError
  | depositTooSmall
  | withdrawalTooSmall
  | withdrawalTooLarge
deriving DecidableEq

/-- Mutations a handler can perform, in program order. -/
inductive Action where
  | merge
  | mintTo (amount : Nat)
  | withdrawLamports (amount : Nat)
  | burn (amount : Nat)
  | split (amount : Nat)
  | authorize (newAuthority : Nat)
deriving DecidableEq

/-- Deserialize the stake state (processor.rs get_stake_state); none models
a borsh deserialization failure. -/
def get_stake_state (d : Option StakeState) : Except PoolError (Meta × Stake) :=
  match d with
  | none => .error .unparseableStakeAccount
  | some (.stake meta stk) => .ok (meta, stk)
  | some _ => .error .wrongStakeState

/-- Deserialize the stake amount (processor.rs get_stake_amount). -/
def get_stake_amount (d : Option StakeState) : Except PoolError Nat :=
  match get_stake_state d with
  | .error e => .error e
  | .ok ms => .ok ms.2.delegation.stake

/-- Determine if stake is active (processor.rs is_stake_active_without_history). -/
def is_stake_active_without_history (stk : Stake) (current_epoch : Nat) : Bool :=
  decide (stk.delegation.activation_epoch < current_epoch) &&
    decide (stk.delegation.deactivation_epoch = EPOCH_MAX)

/-- Fixed spl-token program address (opaque; only equality matters). -/
def spl_token_program_address : Nat := 100

/-- Fixed stake program address (opaque; only equality matters). -/
def stake_program_address : Nat := 101

/-- Minimum delegation to create a pool (processor.rs minimum_delegation):
the network minimum delegation syscall result floored at 1 SOL. -/
def minimum_delegation (network_minimum : Nat) : Nat :=
  max network_minimum LAMPORTS_PER_SOL

/-- Account inputs and environment of a WithdrawStake invocation. -/
structure WithdrawAccounts where
  pool_stake_key : Nat
  pool_authority_key : Nat
  pool_mint_key : Nat
  user_stake_key : Nat
  token_program_key : Nat
  stake_program_key : Nat
  derived_pool_stake_address : Nat
  derived_pool_authority_address : Nat
  derived_pool_mint_address : Nat
  pool_stake_data : Option StakeState
  pool_stake_lamports : Nat
  mint_supply : Option Nat
  network_minimum_delegation : Option Nat
  token_amount : Nat
  burn_ok : Bool
  split_ok : Bool
  authorize_ok : Bool
  post_pool_stake_data : Option StakeState
deriving DecidableEq

/-- WithdrawStake handler (processor.rs process_withdraw_stake), as the list
of mutations performed in order plus the error it stopped at. -/
def process_withdraw_stake (a : WithdrawAccounts) (user_stake_authority : Nat) :
    List Action × Option PoolError :=
  if a.pool_stake_key ≠ a.derived_pool_stake_address then
    ([], some .invalidPoolStakeAccount)
  else if a.pool_authority_key ≠ a.derived_pool_authority_address then
    ([], some .invalidPoolAuthority)
  else if a.pool_mint_key ≠ a.derived_pool_mint_address then
    ([], some .invalidPoolMint)
  else if a.token_program_key ≠ spl_token_program_address then
    ([], some .incorrectProgramId)
  else if a.stake_program_key ≠ stake_program_address then
    ([], some .incorrectProgramId)
  else if a.pool_stake_key = a.user_stake_key then
    ([], some .invalidPoolAccountUsage)
  else
    match a.network_minimum_delegation with
    | none => ([], some .minimumDelegationUnavailable)
    | some network_minimum =>
      let min_delegation := minimum_delegation network_minimum
      match get_stake_amount a.pool_stake_data with
      | .error e => ([], some e)
      | .ok raw_stake =>
        let pre_pool_stake := saturating_sub raw_stake min_delegation
        match a.mint_supply with
        | none => ([], some .unparseableMint)
        | some token_supply =>
          match calculate_withdraw_amount token_supply pre_pool_stake a.token_amount with
          | none => ([], some .unexpectedMathError)
          | some withdraw_stake =>
            if withdraw_stake = 0 then
              ([], some .withdrawalTooSmall)
            else if withdraw_stake > pre_pool_stake ∨
                withdraw_stake = a.pool_stake_lamports then
              ([], some .withdrawalTooLarge)
            else if a.burn_ok = false then
              ([], some .cpiFailed)
            else if a.split_ok = false then
              ([Action.burn a.token_amount], some .cpiFailed)
            else if a.authorize_ok = false then
              ([Action.burn a.token_amount, Action.split withdraw_stake], some .cpiFailed)
            else
              match get_stake_amount a.post_pool_stake_data with
              | .error e =>
                ([Action.burn a.token_amount, Action.split withdraw_stake,
                  Action.authorize user_stake_authority], some e)
              | .ok _ =>
                ([Action.burn a.token_amount, Action.split withdraw_stake,
                  Action.authorize user_stake_authority], none)

/-- Account inputs and environment of a DepositStake invocation. -/
structure DepositAccounts where
  pool_stake_key : Nat
  pool_authority_key : Nat
  pool_mint_key : Nat
  user_stake_key : Nat
  token_program_key : Nat
  stake_program_key : Nat
  derived_pool_stake_address : Nat
  derived_pool_authority_address : Nat
  derived_pool_mint_address : Nat
  clock_epoch : Option Nat
  network_minimum_delegation : Option Nat
  pool_stake_data : Option StakeState
  user_stake_data : Option StakeState
  merge_ok : Bool
  post_merge_pool_stake_data : Option StakeState
  post_merge_pool_lamports : Nat
  post_merge_user_lamports : Nat
  mint_supply : Option Nat
  mint_to_ok : Bool
  withdraw_ok : Bool
deriving DecidableEq

/-- DepositStake handler (processor.rs process_deposit_stake), as the list
of mutations performed in order plus the error it stopped at. -/
def process_deposit_stake (a : DepositAccounts) : List Action × Option PoolError :=
  match a.clock_epoch with
  | none => ([], some .invalidSysvar)
  | some epoch =>
    if a.pool_stake_key ≠ a.derived_pool_stake_address then
      ([], some .invalidPoolStakeAccount)
    else if a.pool_authority_key ≠ a.derived_pool_authority_address then
      ([], some .invalidPoolAuthority)
    else if a.pool_mint_key ≠ a.derived_pool_mint_address then
      ([], some .invalidPoolMint)
    else if a.token_program_key ≠ spl_token_program_address then
      ([], some .incorrectProgramId)
    else if a.stake_program_key ≠ stake_program_address then
      ([], some .incorrectProgramId)
    else if a.pool_stake_key = a.user_stake_key then
      ([], some .invalidPoolAccountUsage)
    else
      match a.network_minimum_delegation with
      | none => ([], some .minimumDelegationUnavailable)
      | some network_minimum =>
        let min_delegation := minimum_delegation network_minimum
        match get_stake_state a.pool_stake_data with
        | .error e => ([], some e)
        | .ok pool_pre =>
          let pre_pool_stake := saturating_sub pool_pre.2.delegation.stake min_delegation
          match get_stake_state a.user_stake_data with
          | .error e => ([], some e)
          | .ok user_pre =>
            if is_stake_active_without_history pool_pre.2 epoch ≠
                is_stake_active_without_history user_pre.2 epoch then
              ([], some .wrongStakeState)
            else if a.merge_ok = false then
              ([], some .cpiFailed)
            else
              match get_stake_state a.post_merge_pool_stake_data with
              | .error e => ([Action.merge], some e)
              | .ok pool_post =>
                let post_pool_stake :=
                  saturating_sub pool_post.2.delegation.stake min_delegation
                match checked_sub_u64 post_pool_stake pre_pool_stake with
                | none => ([Action.merge], some .arithmeticOverflow)
                | some stake_added =>
                  match (checked_sub_u64 a.post_merge_pool_lamports
                      pool_post.2.delegation.stake).bind
                      (fun amount => checked_sub_u64 amount pool_post.1.rent_exempt_reserve) with
                  | none => ([Action.merge], some .arithmeticOverflow)
                  | some excess_lamports =>
                    if post_pool_stake < min_delegation then
                      ([Action.merge], some .unexpectedMathError)
                    else if a.post_merge_user_lamports ≠ 0 then
                      ([Action.merge], some .unexpectedMathError)
                    else
                      match a.mint_supply with
                      | none => ([Action.merge], some .unparseableMint)
                      | some token_supply =>
                        match calculate_deposit_amount token_supply pre_pool_stake
                            stake_added with
                        | none => ([Action.merge], some .unexpectedMathError)
                        | some new_pool_tokens =>
                          if new_pool_tokens = 0 then
                            ([Action.merge], some .depositTooSmall)
                          else if a.mint_to_ok = false then
                            ([Action.merge], some .cpiFailed)
                          else if excess_lamports > 0 then
                            if a.withdraw_ok = false then
                              ([Action.merge, Action.mintTo new_pool_tokens],
                                some .cpiFailed)
                            else
                              ([Action.merge, Action.mintTo new_pool_tokens,
                                Action.withdrawLamports excess_lamports], none)
                          else
                            ([Action.merge, Action.mintTo new_pool_tokens], none)

/-- True exactly on an ok value of the stake-amount read. -/
def except_is_ok (e : Except PoolError Nat) : Bool :=
  match e with
  | .ok _ => true
  | .error _ => false

/-- The withdraw handler address and program checks, which run before the
self-alias guard. -/
def withdraw_prechecks (a : WithdrawAccounts) : Prop :=
  a.pool_stake_key = a.derived_pool_stake_address ∧
  a.pool_authority_key = a.derived_pool_authority_address ∧
  a.pool_mint_key = a.derived_pool_mint_address ∧
  a.token_program_key = spl_token_program_address ∧
  a.stake_program_key = stake_program_address

/-- The withdraw handler reaches the exchange-rate calculation: checks pass,
accounts are distinct, and the environment reads succeed. -/
def withdraw_reaches_calculator (a : WithdrawAccounts) : Prop :=
  withdraw_prechecks a ∧
  a.pool_stake_key ≠ a.user_stake_key ∧
  a.network_minimum_delegation ≠ none ∧
  except_is_ok (get_stake_amount a.pool_stake_data) = true ∧
  a.mint_supply ≠ none

/-- The deposit handler clock read, address and program checks, which run
before the self-alias guard. -/
def deposit_prechecks (a : DepositAccounts) : Prop :=
  a.clock_epoch ≠ none ∧
  a.pool_stake_key = a.derived_pool_stake_address ∧
  a.pool_authority_key = a.derived_pool_authority_address ∧
  a.pool_mint_key = a.derived_pool_mint_address ∧
  a.token_program_key = spl_token_program_address ∧
  a.stake_program_key = stake_program_address

/-- Helper: a failing stake-amount read only produces deserialization
errors, never the withdrawal guard errors. -/
theorem get_stake_amount_error_cases (d : Option StakeState) (e : PoolError)
    (h : get_stake_amount d = Except.error e) :
    e = PoolError.unparseableStakeAccount ∨ e = PoolError.wrongStakeState := by
  rcases d with _ | st
  · simp [get_stake_amount, get_stake_state] at h
    exact Or.inl h.symm
  · rcases st with _ | m | ⟨m, s⟩ | _ <;>
      simp [get_stake_amount, get_stake_state] at h <;>
      exact Or.inr h.symm

/-- C5: once the withdraw handler reaches the exchange-rate calculation, it
stops at WithdrawalTooSmall exactly when the computed stake to release is
zero, stops at WithdrawalTooLarge exactly when that amount exceeds the
pre-split effective stake or equals the whole pool stake lamport balance,
and in each such case performs no mutation (no burn, no split). -/
theorem process_withdraw_stake_guards (a : WithdrawAccounts) (ua nmd raw supply w : Nat)
    (h1 : a.pool_stake_key = a.derived_pool_stake_address)
    (h2 : a.pool_authority_key = a.derived_pool_authority_address)
    (h3 : a.pool_mint_key = a.derived_pool_mint_address)
    (h4 : a.token_program_key = spl_token_program_address)
    (h5 : a.stake_program_key = stake_program_address)
    (h6 : a.pool_stake_key ≠ a.user_stake_key)
    (h7 : a.network_minimum_delegation = some nmd)
    (h8 : get_stake_amount a.pool_stake_data = Except.ok raw)
    (h9 : a.mint_supply = some supply)
    (h10 : calculate_withdraw_amount supply
      (saturating_sub raw (minimum_delegation nmd)) a.token_amount = some w) :
    ((process_withdraw_stake a ua).2 = some PoolError.withdrawalTooSmall ↔ w = 0) ∧
    (w ≠ 0 →
      ((process_withdraw_stake a ua).2 = some PoolError.withdrawalTooLarge ↔
        (saturating_sub raw (minimum_delegation nmd) < w ∨
          w = a.pool_stake_lamports))) ∧
    ((w = 0 ∨ saturating_sub raw (minimum_delegation nmd) < w ∨
        w = a.pool_stake_lamports) →
      (process_withdraw_stake a ua).1 = []) := by
  obtain ⟨psk, pak, pmk, usk, tpk, spk, dps, dpa, dpm, psd, psl, ms, nm, ta,
    bok, sok, aok, ppsd⟩ := a
  dsimp only at h1 h2 h3 h4 h5 h6 h7 h8 h9 h10 ⊢
  subst h1; subst h2; subst h3; subst h4; subst h5; subst h7; subst h9
  simp only [process_withdraw_stake, h8, h10]
  simp only [ne_eq, not_true_eq_false, if_false, ite_false, if_neg, not_false_eq_true,
    ite_true, if_pos]
  simp [h6]
  by_cases hw : w = 0
  · simp [hw]
  · simp only [hw, if_false, ite_false]
    by_cases hg : saturating_sub raw (minimum_delegation nmd) < w ∨ w = psl
    · simp [hg]
    · simp only [hg, if_false, ite_false]
      have hno : ∀ h : w = 0 ∨ saturating_sub raw (minimum_delegation nmd) < w ∨ w = psl,
          False := by
        intro h
        rcases h with h | h
        · exact hw h
        · exact hg h
      rcases bok with _ | _
      · simp [hw, hg, hno]
      · rcases sok with _ | _
        · simp [hw, hg, hno]
        · rcases aok with _ | _
          · simp [hw, hg, hno]
          · rcases hpost : get_stake_amount ppsd with e | r
            · rcases get_stake_amount_error_cases ppsd e hpost with he | he <;>
                subst he <;> simp [hpost, hw, hg, hno]
            · simp [hpost, hw, hg, hno]

/-- Example WithdrawStake invocation: addresses derived correctly, pool
stake 3 SOL (effective 2 SOL after the 1 SOL floor), supply 2e9 tokens,
burning 1e9 tokens. -/
def withdraw_example : WithdrawAccounts :=
  ⟨10, 11, 12, 13, 100, 101, 10, 11, 12,
    some (StakeState.stake ⟨2282880⟩ ⟨⟨3000000000, 0, EPOCH_MAX⟩⟩),
    5000000000, some 2000000000, some 0, 1000000000, true, true, true,
    some (StakeState.stake ⟨2282880⟩ ⟨⟨2000000000, 0, EPOCH_MAX⟩⟩)⟩

/-- Witness for C5 on the example invocation, where the computed release is
1 SOL: neither guard fires and the handler proceeds. -/
theorem process_withdraw_stake_guards_witness :
    withdraw_example.pool_stake_key = withdraw_example.derived_pool_stake_address ∧
    withdraw_example.pool_authority_key =
      withdraw_example.derived_pool_authority_address ∧
    withdraw_example.pool_mint_key = withdraw_example.derived_pool_mint_address ∧
    withdraw_example.token_program_key = spl_token_program_address ∧
    withdraw_example.stake_program_key = stake_program_address ∧
    withdraw_example.pool_stake_key ≠ withdraw_example.user_stake_key ∧
    withdraw_example.network_minimum_delegation = some 0 ∧
    get_stake_amount withdraw_example.pool_stake_data = Except.ok 3000000000 ∧
    withdraw_example.mint_supply = some 2000000000 ∧
    calculate_withdraw_amount 2000000000
      (saturating_sub 3000000000 (minimum_delegation 0))
      withdraw_example.token_amount = some 1000000000 ∧
    (((process_withdraw_stake withdraw_example 77).2 =
        some PoolError.withdrawalTooSmall ↔ (1000000000 : Nat) = 0) ∧
      ((1000000000 : Nat) ≠ 0 →
        ((process_withdraw_stake withdraw_example 77).2 =
            some PoolError.withdrawalTooLarge ↔
          (saturating_sub 3000000000 (minimum_delegation 0) < 1000000000 ∨
            (1000000000 : Nat) = withdraw_example.pool_stake_lamports))) ∧
      (((1000000000 : Nat) = 0 ∨
          saturating_sub 3000000000 (minimum_delegation 0) < 1000000000 ∨
          (1000000000 : Nat) = withdraw_example.pool_stake_lamports) →
        (process_withdraw_stake withdraw_example 77).1 = [])) :=
  ⟨by decide, by decide, by decide, by decide, by decide, by decide, by decide,
    rfl, by decide, by decide,
    process_withdraw_stake_guards withdraw_example 77 0 3000000000 2000000000
      1000000000 (by decide) (by decide) (by decide) (by decide) (by decide)
      (by decide) (by decide) rfl (by decide) (by decide)⟩

/-- C6: an invocation of DepositStake or WithdrawStake whose pool stake
account equals its user stake account always stops in an error and performs
no mutation, and the error is InvalidPoolAccountUsage whenever the earlier
clock, address and program checks pass. -/
theorem self_alias_always_fails (da : DepositAccounts) (wa : WithdrawAccounts) (ua : Nat)
    (hd : da.pool_stake_key = da.user_stake_key)
    (hw : wa.pool_stake_key = wa.user_stake_key) :
    ((process_deposit_stake da).1 = [] ∧ (process_deposit_stake da).2 ≠ none ∧
      (deposit_prechecks da →
        (process_deposit_stake da).2 = some PoolError.invalidPoolAccountUsage)) ∧
    ((process_withdraw_stake wa ua).1 = [] ∧ (process_withdraw_stake wa ua).2 ≠ none ∧
      (withdraw_prechecks wa →
        (process_withdraw_stake wa ua).2 = some PoolError.invalidPoolAccountUsage)) := by
  constructor
  · obtain ⟨psk, pak, pmk, usk, tpk, spk, dps, dpa, dpm, clk, nm, psd, usd,
      mok, pmsd, pml, pul, ms, mtk, wok⟩ := da
    dsimp only at hd ⊢
    subst hd
    rcases clk with _ | epoch
    · refine ⟨rfl, by simp [process_deposit_stake], ?_⟩
      intro hpre
      exact absurd rfl hpre.1
    · simp only [process_deposit_stake, deposit_prechecks]
      by_cases c1 : psk ≠ dps
      · simp [c1]
      · by_cases c2 : pak ≠ dpa
        · simp [c1, c2]
        · by_cases c3 : pmk ≠ dpm
          · simp [c1, c2, c3]
          · by_cases c4 : tpk ≠ spl_token_program_address
            · simp [c1, c2, c3, c4]
            · by_cases c5 : spk ≠ stake_program_address
              · simp [c1, c2, c3, c4, c5]
              · simp [c1, c2, c3, c4, c5]
  · obtain ⟨psk, pak, pmk, usk, tpk, spk, dps, dpa, dpm, psd, psl, ms, nm, ta,
      bok, sok, aok, ppsd⟩ := wa
    dsimp only at hw ⊢
    subst hw
    simp only [process_withdraw_stake, withdraw_prechecks]
    by_cases c1 : psk ≠ dps
    · simp [c1]
    · by_cases c2 : pak ≠ dpa
      · simp [c1, c2]
      · by_cases c3 : pmk ≠ dpm
        · simp [c1, c2, c3]
        · by_cases c4 : tpk ≠ spl_token_program_address
          · simp [c1, c2, c3, c4]
          · by_cases c5 : spk ≠ stake_program_address
            · simp [c1, c2, c3, c4, c5]
            · simp [c1, c2, c3, c4, c5]

/-- Example self-aliased DepositStake invocation: the user stake account is
the pool stake account itself. -/
def deposit_alias_example : DepositAccounts :=
  ⟨10, 11, 12, 10, 100, 101, 10, 11, 12, some 5, some 0,
    some (StakeState.stake ⟨2282880⟩ ⟨⟨2000000000, 0, EPOCH_MAX⟩⟩),
    some (StakeState.stake ⟨2282880⟩ ⟨⟨1000000000, 0, EPOCH_MAX⟩⟩),
    true, some (StakeState.stake ⟨2282880⟩ ⟨⟨3000000000, 0, EPOCH_MAX⟩⟩),
    3002282880, 0, some 1000000000, true, true⟩

/-- Example self-aliased WithdrawStake invocation. -/
def withdraw_alias_example : WithdrawAccounts :=
  ⟨10, 11, 12, 10, 100, 101, 10, 11, 12,
    some (StakeState.stake ⟨2282880⟩ ⟨⟨3000000000, 0, EPOCH_MAX⟩⟩),
    5000000000, some 2000000000, some 0, 1000000000, true, true, true,
    some (StakeState.stake ⟨2282880⟩ ⟨⟨2000000000, 0, EPOCH_MAX⟩⟩)⟩

/-- Witness for C6 on the self-aliased examples. -/
theorem self_alias_always_fails_witness :
    deposit_alias_example.pool_stake_key = deposit_alias_example.user_stake_key ∧
    withdraw_alias_example.pool_stake_key = withdraw_alias_example.user_stake_key ∧
    (((process_deposit_stake deposit_alias_example).1 = [] ∧
        (process_deposit_stake deposit_alias_example).2 ≠ none ∧
        (deposit_prechecks deposit_alias_example →
          (process_deposit_stake deposit_alias_example).2 =
            some PoolError.invalidPoolAccountUsage)) ∧
      ((process_withdraw_stake withdraw_alias_example 77).1 = [] ∧
        (process_withdraw_stake withdraw_alias_example 77).2 ≠ none ∧
        (withdraw_prechecks withdraw_alias_example →
          (process_withdraw_stake withdraw_alias_example 77).2 =
            some PoolError.invalidPoolAccountUsage))) :=
  ⟨by decide, by decide,
    self_alias_always_fails deposit_alias_example withdraw_alias_example 77
      (by decide) (by decide)⟩

/-- C7: when the deposit handler can read both stake accounts and their
activity status at the current epoch differs, it always stops in an error
and performs no mutation (in particular no merge), and the error is
WrongStakeState whenever the earlier checks pass, the accounts are distinct
and the minimum-delegation syscall succeeds. -/
theorem activity_mismatch_fails_before_merge (da : DepositAccounts) (epoch : Nat)
    (pm um : Meta) (ps us : Stake)
    (hc : da.clock_epoch = some epoch)
    (hp : get_stake_state da.pool_stake_data = Except.ok (pm, ps))
    (hu : get_stake_state da.user_stake_data = Except.ok (um, us))
    (hmix : is_stake_active_without_history ps epoch ≠
      is_stake_active_without_history us epoch) :
    (process_deposit_stake da).1 = [] ∧ (process_deposit_stake da).2 ≠ none ∧
    (deposit_prechecks da ∧ da.pool_stake_key ≠ da.user_stake_key ∧
        da.network_minimum_delegation ≠ none →
      (process_deposit_stake da).2 = some PoolError.wrongStakeState) := by
  obtain ⟨psk, pak, pmk, usk, tpk, spk, dps, dpa, dpm, clk, nm, psd, usd,
    mok, pmsd, pml, pul, ms, mtk, wok⟩ := da
  dsimp only at hc hp hu ⊢
  subst hc
  simp only [process_deposit_stake, deposit_prechecks]
  by_cases c1 : psk ≠ dps
  · simp [c1]
  · by_cases c2 : pak ≠ dpa
    · simp [c1, c2]
    · by_cases c3 : pmk ≠ dpm
      · simp [c1, c2, c3]
      · by_cases c4 : tpk ≠ spl_token_program_address
        · simp [c1, c2, c3, c4]
        · by_cases c5 : spk ≠ stake_program_address
          · simp [c1, c2, c3, c4, c5]
          · by_cases c6 : psk = usk
            · simp [c1, c2, c3, c4, c5, c6]
              split <;> simp
            · rcases nm with _ | nmd
              · simp [c1, c2, c3, c4, c5, c6]
              · simp [c1, c2, c3, c4, c5, c6, hp, hu, hmix]

/-- Example DepositStake invocation at epoch 5 with an active pool stake and
a still-activating user stake. -/
def deposit_mismatch_example : DepositAccounts :=
  ⟨10, 11, 12, 13, 100, 101, 10, 11, 12, some 5, some 0,
    some (StakeState.stake ⟨2282880⟩ ⟨⟨2000000000, 0, EPOCH_MAX⟩⟩),
    some (StakeState.stake ⟨2282880⟩ ⟨⟨1000000000, 5, EPOCH_MAX⟩⟩),
    true, some (StakeState.stake ⟨2282880⟩ ⟨⟨3000000000, 0, EPOCH_MAX⟩⟩),
    3002282880, 0, some 1000000000, true, true⟩

/-- Witness for C7 on the mismatched example. -/
theorem activity_mismatch_fails_before_merge_witness :
    deposit_mismatch_example.clock_epoch = some 5 ∧
    get_stake_state deposit_mismatch_example.pool_stake_data =
      Except.ok (⟨2282880⟩, ⟨⟨2000000000, 0, EPOCH_MAX⟩⟩) ∧
    get_stake_state deposit_mismatch_example.user_stake_data =
      Except.ok (⟨2282880⟩, ⟨⟨1000000000, 5, EPOCH_MAX⟩⟩) ∧
    is_stake_active_without_history ⟨⟨2000000000, 0, EPOCH_MAX⟩⟩ 5 ≠
      is_stake_active_without_history ⟨⟨1000000000, 5, EPOCH_MAX⟩⟩ 5 ∧
    ((process_deposit_stake deposit_mismatch_example).1 = [] ∧
      (process_deposit_stake deposit_mismatch_example).2 ≠ none ∧
      (deposit_prechecks deposit_mismatch_example ∧
          deposit_mismatch_example.pool_stake_key ≠
            deposit_mismatch_example.user_stake_key ∧
          deposit_mismatch_example.network_minimum_delegation ≠ none →
        (process_deposit_stake deposit_mismatch_example).2 =
          some PoolError.wrongStakeState)) :=
  ⟨by decide, rfl, rfl, by decide,
    activity_mismatch_fails_before_merge deposit_mismatch_example 5
      ⟨2282880⟩ ⟨2282880⟩ ⟨⟨2000000000, 0, EPOCH_MAX⟩⟩ ⟨⟨1000000000, 5, EPOCH_MAX⟩⟩
      (by decide) rfl rfl (by decide)⟩

/-- C8: the minimum-delegation floor used by the handlers is the maximum of
the network minimum delegation and the fixed 1 SOL floor, and effective
stake is raw stake minus this floor by saturating subtraction: zero whenever
raw stake is at most the floor, exact otherwise, never an underflow. -/
theorem minimum_delegation_floor (nmd raw : Nat)
    (h : raw ≤ minimum_delegation nmd) :
    minimum_delegation nmd = max nmd LAMPORTS_PER_SOL ∧
    LAMPORTS_PER_SOL ≤ minimum_delegation nmd ∧
    nmd ≤ minimum_delegation nmd ∧
    saturating_sub raw (minimum_delegation nmd) = 0 ∧
    (∀ r, minimum_delegation nmd ≤ r →
      saturating_sub r (minimum_delegation nmd) + minimum_delegation nmd = r) := by
  refine ⟨rfl, Nat.le_max_right _ _, Nat.le_max_left _ _, ?_, ?_⟩
  · simp only [saturating_sub]
    omega
  · intro r hr
    simp only [saturating_sub]
    omega

/-- Witness for C8 with network minimum 0 and raw stake 5 lamports. -/
theorem minimum_delegation_floor_witness :
    5 ≤ minimum_delegation 0 ∧
    (minimum_delegation 0 = max 0 LAMPORTS_PER_SOL ∧
      LAMPORTS_PER_SOL ≤ minimum_delegation 0 ∧
      0 ≤ minimum_delegation 0 ∧
      saturating_sub 5 (minimum_delegation 0) = 0 ∧
      (∀ r, minimum_delegation 0 ≤ r →
        saturating_sub r (minimum_delegation 0) + minimum_delegation 0 = r)) :=
  ⟨by decide, minimum_delegation_floor 0 5 (by decide)⟩

/-- C9: the withdraw calculator maps zero burned tokens to zero stake for
every supply and stake, so a WithdrawStake instruction with token_amount 0
performs no mutation and always stops in an error, which is
WithdrawalTooSmall whenever it reaches the calculation. -/
theorem zero_token_withdraw_fails (s p : Nat) (wa : WithdrawAccounts) (ua : Nat)
    (h0 : wa.token_amount = 0) :
    calculate_withdraw_amount s p 0 = some 0 ∧
    (process_withdraw_stake wa ua).1 = [] ∧
    (process_withdraw_stake wa ua).2 ≠ none ∧
    (withdraw_reaches_calculator wa →
      (process_withdraw_stake wa ua).2 = some PoolError.withdrawalTooSmall) := by
  have hzero : ∀ sup pre : Nat, calculate_withdraw_amount sup pre 0 = some 0 := by
    intro sup pre
    have h0m : (0 : Nat) * pre = 0 := Nat.zero_mul pre
    have h128 : (0 : Nat) < U128_MOD := by decide
    rcases Nat.eq_zero_or_pos sup with h | h
    · simp [calculate_withdraw_amount, checked_mul_u128, h0m, h128, h]
    · simp [calculate_withdraw_amount, checked_mul_u128, h0m, h128, h]
  refine ⟨hzero s p, ?_⟩
  obtain ⟨psk, pak, pmk, usk, tpk, spk, dps, dpa, dpm, psd, psl, ms, nm, ta,
    bok, sok, aok, ppsd⟩ := wa
  dsimp only at h0 ⊢
  subst h0
  simp only [process_withdraw_stake, withdraw_reaches_calculator,
    withdraw_prechecks, except_is_ok]
  by_cases c1 : psk ≠ dps
  · simp [c1]
  · by_cases c2 : pak ≠ dpa
    · simp [c1, c2]
    · by_cases c3 : pmk ≠ dpm
      · simp [c1, c2, c3]
      · by_cases c4 : tpk ≠ spl_token_program_address
        · simp [c1, c2, c3, c4]
        · by_cases c5 : spk ≠ stake_program_address
          · simp [c1, c2, c3, c4, c5]
          · by_cases c6 : psk = usk
            · simp [c1, c2, c3, c4, c5, c6]
              split <;> simp
            · rcases nm with _ | nmd
              · simp [c1, c2, c3, c4, c5, c6]
              · rcases hga : get_stake_amount psd with e | raw
                · simp [c1, c2, c3, c4, c5, c6, hga]
                · rcases ms with _ | supply
                  · simp [c1, c2, c3, c4, c5, c6, hga]
                  · simp [c1, c2, c3, c4, c5, c6, hga, hzero]

/-- Example WithdrawStake invocation burning zero tokens. -/
def withdraw_zero_example : WithdrawAccounts :=
  ⟨10, 11, 12, 13, 100, 101, 10, 11, 12,
    some (StakeState.stake ⟨2282880⟩ ⟨⟨3000000000, 0, EPOCH_MAX⟩⟩),
    5000000000, some 2000000000, some 0, 0, true, true, true,
    some (StakeState.stake ⟨2282880⟩ ⟨⟨3000000000, 0, EPOCH_MAX⟩⟩)⟩

/-- Witness for C9 on the zero-token example. -/
theorem zero_token_withdraw_fails_witness :
    withdraw_zero_example.token_amount = 0 ∧
    (calculate_withdraw_amount 7 9 0 = some 0 ∧
      (process_withdraw_stake withdraw_zero_example 77).1 = [] ∧
      (process_withdraw_stake withdraw_zero_example 77).2 ≠ none ∧
      (withdraw_reaches_calculator withdraw_zero_example →
        (process_withdraw_stake withdraw_zero_example 77).2 =
          some PoolError.withdrawalTooSmall)) :=
  ⟨by decide, zero_token_withdraw_fails 7 9 withdraw_zero_example 77 (by decide)⟩

/-- Self-aliased DepositStake invocation whose token program account is not
the spl-token program. -/
def deposit_alias_badprog_example : DepositAccounts :=
  ⟨10, 11, 12, 10, 999, 101, 10, 11, 12, some 5, some 0,
    some (StakeState.stake ⟨2282880⟩ ⟨⟨2000000000, 0, EPOCH_MAX⟩⟩),
    some (StakeState.stake ⟨2282880⟩ ⟨⟨1000000000, 0, EPOCH_MAX⟩⟩),
    true, some (StakeState.stake ⟨2282880⟩ ⟨⟨3000000000, 0, EPOCH_MAX⟩⟩),
    3002282880, 0, some 1000000000, true, true⟩

/-- Counterexample for C6 as stated: a self-aliased deposit whose token
program account is wrong fails with IncorrectProgramId, not with
InvalidPoolAccountUsage (it does still fail without mutating). -/
theorem self_alias_error_not_always_usage :
    deposit_alias_badprog_example.pool_stake_key =
      deposit_alias_badprog_example.user_stake_key ∧
    (process_deposit_stake deposit_alias_badprog_example).2 =
      some PoolError.incorrectProgramId ∧
    (process_deposit_stake deposit_alias_badprog_example).2 ≠
      some PoolError.invalidPoolAccountUsage := by
  refine ⟨by decide, by decide, by decide⟩

/-- DepositStake invocation at epoch 5 with mismatched activity status and a
wrong pool mint account. -/
def deposit_mismatch_badmint_example : DepositAccounts :=
  ⟨10, 11, 99, 13, 100, 101, 10, 11, 12, some 5, some 0,
    some (StakeState.stake ⟨2282880⟩ ⟨⟨2000000000, 0, EPOCH_MAX⟩⟩),
    some (StakeState.stake ⟨2282880⟩ ⟨⟨1000000000, 5, EPOCH_MAX⟩⟩),
    true, some (StakeState.stake ⟨2282880⟩ ⟨⟨3000000000, 0, EPOCH_MAX⟩⟩),
    3002282880, 0, some 1000000000, true, true⟩

/-- Counterexample for C7 as stated: a deposit whose stake activity statuses
differ but whose pool mint account is wrong fails with InvalidPoolMint, not
with WrongStakeState (it does still fail before the merge). -/
theorem activity_mismatch_error_not_always_wrong_state :
    get_stake_state deposit_mismatch_badmint_example.pool_stake_data =
      Except.ok (⟨2282880⟩, ⟨⟨2000000000, 0, EPOCH_MAX⟩⟩) ∧
    get_stake_state deposit_mismatch_badmint_example.user_stake_data =
      Except.ok (⟨2282880⟩, ⟨⟨1000000000, 5, EPOCH_MAX⟩⟩) ∧
    deposit_mismatch_badmint_example.clock_epoch = some 5 ∧
    is_stake_active_without_history ⟨⟨2000000000, 0, EPOCH_MAX⟩⟩ 5 ≠
      is_stake_active_without_history ⟨⟨1000000000, 5, EPOCH_MAX⟩⟩ 5 ∧
    (process_deposit_stake deposit_mismatch_badmint_example).2 =
      some PoolError.invalidPoolMint ∧
    (process_deposit_stake deposit_mismatch_badmint_example).2 ≠
      some PoolError.wrongStakeState := by
  refine ⟨rfl, rfl, by decide, by decide, by decide, by decide⟩

/-- WithdrawStake invocation burning zero tokens whose token program account
is not the spl-token program. -/
def withdraw_zero_badprog_example : WithdrawAccounts :=
  ⟨10, 11, 12, 13, 999, 101, 10, 11, 12,
    some (StakeState.stake ⟨2282880⟩ ⟨⟨3000000000, 0, EPOCH_MAX⟩⟩),
    5000000000, some 2000000000, some 0, 0, true, true, true,
    some (StakeState.stake ⟨2282880⟩ ⟨⟨3000000000, 0, EPOCH_MAX⟩⟩)⟩

/-- Counterexample for C9 as stated: a zero-token withdrawal with a wrong
token program account fails with IncorrectProgramId, not with
WithdrawalTooSmall (it does still fail without mutating). -/
theorem zero_token_error_not_always_too_small :
    withdraw_zero_badprog_example.token_amount = 0 ∧
    (process_withdraw_stake withdraw_zero_badprog_example 77).2 =
      some PoolError.incorrectProgramId ∧
    (process_withdraw_stake withdraw_zero_badprog_example 77).2 ≠
      some PoolError.withdrawalTooSmall := by
  refine ⟨by decide, by decide, by decide⟩

end SinglePool
